import Mathlib

/-!
# Verification of the `rerun` development-loop supervisor

Shallow embedding of the Go sources of `skelterjohn/rerun`:
`src/unnamed/part_000` (the variant with debounce, remote connect and the
build/test flags) and `src/rerun.go` (the older variant with
`addToWatcher`).  Pure functions of the Go code become Lean functions;
the stateful loops become explicit state passing over lists of inputs;
external effects (the toolchain invocation, the OS process table, the
network stream, the JSON decoder) become explicit input data.
-/

namespace Rerun

/-! ## Configuration flags (`part_000` lines 28-35) -/

/-- The command-line flag set of `part_000` that the build pipeline reads:
`-test`, `-build`, `-no-run`.  (`-race` only changes the toolchain command
line, `-connect` and `-interval` select the event source / window.) -/
structure Config where
  do_tests : Bool
  do_build : Bool
  never_run : Bool
deriving DecidableEq, Repr

/-! ## The Install stage (`part_000` `install`, lines 37-66; identical
logic in `rerun.go` lines 26-50)

The toolchain invocation is external: an `InstallExec` records what the
`go get` command did on one invocation — the combined stdout/stderr text
written into the shared buffer, and whether `cmd.Run()` returned a
non-nil error (non-zero exit status). -/

/-- One observed execution of the `go get` toolchain command. -/
structure InstallExec where
  out : String
  runFailed : Bool
deriving DecidableEq, Repr

/-- The values `install` returns, plus whether it printed the output.
`err` is `some "compile error"` when the buffer was non-empty, otherwise
it is whatever `cmd.Run()` returned. -/
structure InstallRes where
  installed : Bool
  errorOutput : String
  err : Option String
  printed : Bool
deriving DecidableEq, Repr

/-- `install(buildpath, lastError)` of `part_000` lines 37-66: if the
shared output buffer is non-empty the stage failed with a "compile
error", and the output is printed only when it differs from `lastError`;
if the buffer is empty, `installed` is set to true and `err` stays as
`cmd.Run()`'s error. -/
def installModel (e : InstallExec) (lastError : String) : InstallRes :=
  if e.out = "" then
    { installed := true, errorOutput := "",
      err := if e.runFailed then some "exit status" else none,
      printed := false }
  else
    { installed := false, errorOutput := e.out,
      err := some "compile error",
      printed := e.out ≠ lastError }

/-! ## One rebuild cycle (`part_000` `rerun`, lines 224-244)

The debounce callback: install; if it failed, return; if `-test` and
tests failed, return; if `-build`, run `gobuild` (its result is
ignored); if not `-no-run`, send a restart request. -/

/-- External observations for one rebuild cycle: what the toolchain did
in each stage, had it been invoked. -/
structure CycleExec where
  inst : InstallExec
  testPassed : Bool
  buildPassed : Bool
deriving DecidableEq, Repr

/-- What one pass of the debounce callback did. -/
structure CycleReport where
  installed : Bool
  printedError : Bool
  testRan : Bool
  buildRan : Bool
  restarted : Bool
deriving DecidableEq, Repr

/-- The debounce callback of `part_000` lines 224-244, with `lastError`
the string the closure passes as `install`'s second argument. -/
def cycleModel (cfg : Config) (lastError : String) (c : CycleExec) : CycleReport :=
  let r := installModel c.inst lastError
  if !r.installed then
    { installed := false, printedError := r.printed,
      testRan := false, buildRan := false, restarted := false }
  else if cfg.do_tests && !c.testPassed then
    { installed := true, printedError := r.printed,
      testRan := true, buildRan := false, restarted := false }
  else
    { installed := true, printedError := r.printed,
      testRan := cfg.do_tests, buildRan := cfg.do_build,
      restarted := !cfg.never_run }

/-! ## The rebuild session of `part_000` (`rerun`, lines 205-244)

Line 205 runs the startup install with `lastError = ""` and binds
`errorOutput`.  The debounce callback (line 226) calls
`install(buildpath, errorOutput)` and discards the returned error output
(`installed, _, _ :=`), so every cycle compares against the startup
install's output: the closure-captured `errorOutput` is never updated. -/

/-- The sequence of cycle reports produced by `part_000`'s `rerun` for a
given startup install execution and a list of per-cycle executions.
Faithful to the source: `lastError` is the startup `errorOutput` for
every cycle. -/
def rerunSession (cfg : Config) (initE : InstallExec) (cycles : List CycleExec) :
    List CycleReport :=
  let errorOutput := (installModel initE "").errorOutput
  cycles.map (cycleModel cfg errorOutput)

/-! ## Startup of `rerun` (`part_000` lines 167-191; same structure in
`rerun.go` lines 123-147)

`rerun` first resolves the entry import path with `build.Import`; a
resolution failure is returned at once.  If the package name is not
`"main"` it returns `errors.New(fmt.Sprintf("expected package %q, got
%q", "main", pkg.Name))`.  Only after these checks does it compute the
binary path, start the supervisor and set up the watcher / remote
connection, so both failures happen before any event source exists. -/

/-- A resolved Go package as `build.Import` reports it: package name,
source directory, standard-library membership, direct imports. -/
structure Pkg where
  name : String
  dir : String
  goroot : Bool
  imports : List String
deriving DecidableEq, Repr

/-- How far `rerun` got before its first effect on the event sources. -/
inductive SetupOutcome where
  | resolveFailed : SetupOutcome
  | wrongPackage : String → SetupOutcome
  | watchingStarted : SetupOutcome
deriving DecidableEq, Repr

/-- The startup prefix of `rerun` (`part_000` lines 170-178): resolve
the entry module, reject a non-`"main"` package with the formatted
error, otherwise proceed to set up supervision and watching.  Go's `%q`
verb is modelled as plain double-quoting (no characters needing escapes
appear in package names). -/
def rerunSetup (resolve : Option Pkg) : SetupOutcome :=
  match resolve with
  | none => .resolveFailed
  | some pkg =>
    if pkg.name ≠ "main" then
      .wrongPackage ("expected package \"main\", got \"" ++ pkg.name ++ "\"")
    else
      .watchingStarted

/-! ## The change aggregator (`part_000` `debounce`, lines 150-165)

The `select` loop is driven by two kinds of input: a change event
arriving on the channel, and the `time.After(*interval)` timer firing
because no event arrived for a full window.  The state is the single
`changed` slot, initially `""`. -/

/-- One input to the `debounce` select loop. -/
inductive DInput where
  | event : String → DInput
  | timeout : DInput
deriving DecidableEq, Repr

/-- `filepath.Ext`: the suffix beginning at the final dot in the final
slash-separated element of the path; empty if there is no dot.  Modelled
by scanning the reversed character list, as Go scans from the end of the
string back to the first path separator. -/
def extRevAux : List Char → List Char → List Char
  | _, [] => []
  | acc, c :: rest =>
    if c = '/' then []
    else if c = '.' then c :: acc
    else extRevAux (c :: acc) rest

/-- `filepath.Ext` on a whole string. -/
def fileExt (s : String) : String := String.mk (extRevAux [] s.data.reverse)

/-- One iteration of the `debounce` loop body over `(changed, emitted)`:
an event whose path has extension ".go" overwrites the pending slot; a
timer expiry with a non-empty slot fires the callback (emits a trigger
with the slot's path) and clears the slot. -/
def debounceStep : String × List String → DInput → String × List String
  | (changed, out), .event f =>
    (if fileExt f = ".go" then f else changed, out)
  | (changed, out), .timeout =>
    if changed = "" then (changed, out) else ("", out ++ [changed])

/-- Run the `debounce` loop from slot state `s` over a list of inputs,
collecting the emitted trigger paths in order. -/
def debounceRun (s : String) (l : List DInput) : String × List String :=
  l.foldl debounceStep (s, [])

/-! ## Watch-set construction

Two variants exist in the sources.  `part_000` lines 249-276 (`watch`):
a global `watching` map is consulted (`if _, exists := watching[imp];
!exists`) before recursing, but **no statement ever inserts into it**;
and after registering its directory, every call enters `for ev := range
eventCh { buildCh <- ev.Path() }` (lines 271-273) — the notify package
never closes the caller's channel, so this loop never exits and the
call never returns.  A call returns only when `build.Import` fails or
the package is in Goroot.  `rerun.go` lines 100-121 (`addToWatcher`):
the `watching` map is passed down, `watching[importpath] = true` is set
before recursing into the imports, and there is no event loop — the
call always returns.

The package universe is a resolution function `g : String → Option Pkg`
standing for `build.Import`.  `watch` yields the directories registered
by `notify.Watch` (a side effect on the notify system, meaningful even
when the call itself is stuck) together with how the call behaves:
`returns`, `blocks` (stuck forever in the event-forwarding loop of this
call or of a recursive call), or `outOfFuel` — the recursion did not
resolve within the modelled call-stack depth; `outOfFuel` at every
depth means the Go recursion diverges. -/

/-- How a call to `watch` of `part_000` behaves. -/
inductive WatchOut where
  | returns : WatchOut
  | blocks : WatchOut
  | outOfFuel : WatchOut
deriving DecidableEq, Repr

mutual

/-- `watch` of `part_000` lines 251-276: resolve (a failure returns at
once); return on a Goroot package; recurse into every import not found
in `watching` (which the source never extends); register `pkg.Dir`;
then forward events forever — the call blocks and never returns.  A
blocked or diverging recursive call leaves the loop stuck there: later
imports and this package's own registration are never reached. -/
def watch (g : String → Option Pkg) : Nat → List String → String → List String × WatchOut
  | 0, _, _ => ([], WatchOut.outOfFuel)
  | fuel + 1, watching, ip =>
    match g ip with
    | none => ([], WatchOut.returns)
    | some pkg =>
      if pkg.goroot then ([], WatchOut.returns)
      else
        match watchImports g fuel watching pkg.imports with
        | (ds, WatchOut.returns) => (ds ++ [pkg.dir], WatchOut.blocks)
        | (ds, o) => (ds, o)
termination_by fuel _ _ => (fuel, 0)

/-- The import loop of `watch`: each import not present in `watching`
is visited recursively, left to right; the loop proceeds past an import
only if its call returned. -/
def watchImports (g : String → Option Pkg) : Nat → List String → List String → List String × WatchOut
  | _, _, [] => ([], WatchOut.returns)
  | fuel, watching, imp :: rest =>
    if watching.contains imp then watchImports g fuel watching rest
    else
      match watch g fuel watching imp with
      | (ds, WatchOut.returns) =>
        match watchImports g fuel watching rest with
        | (ds2, o) => (ds ++ ds2, o)
      | (ds, o) => (ds, o)
termination_by fuel _ l => (fuel, l.length + 1)

end

mutual

/-- `addToWatcher` of `rerun.go` lines 106-121: resolve; drop Goroot
packages; register `pkg.Dir`; mark the import path visited; recurse into
every import not yet marked, threading the visited map.  Returns the
updated visited map and the registered directories in order. -/
def addToWatcher (g : String → Option Pkg) :
    Nat → String → List String → Option (List String × List String)
  | 0, _, _ => none
  | fuel + 1, ip, watching =>
    match g ip with
    | none => some (watching, [])
    | some pkg =>
      if pkg.goroot then some (watching, [])
      else
        match addImports g fuel pkg.imports (ip :: watching) with
        | none => none
        | some (w, ds) => some (w, pkg.dir :: ds)
termination_by fuel _ _ => (fuel, 0)

/-- The import loop of `addToWatcher`, threading the visited map. -/
def addImports (g : String → Option Pkg) :
    Nat → List String → List String → Option (List String × List String)
  | _, [], watching => some (watching, [])
  | fuel, imp :: rest, watching =>
    match (if watching.contains imp then some (watching, [])
           else addToWatcher g fuel imp watching) with
    | none => none
    | some (w1, d1) =>
      match addImports g fuel rest w1 with
      | none => none
      | some (w2, d2) => some (w2, d1 ++ d2)
termination_by fuel l _ => (fuel, l.length + 1)

end

/-! ## The process supervisor (`part_000` `run`, lines 120-148)

The goroutine owns the single `proc` variable and consumes restart
requests from `runch` strictly one at a time.  Each request is
processed to completion — signal (or kill on signal error), then
`Wait`, then `Start` — before the next is read, so the loop is the list
fold below.  External nondeterminism (did `Signal` error, did `Start`
succeed) is recorded on the request. -/

/-- One restart request as the supervisor observes it: the boolean
received on `runch`, whether `proc.Signal` succeeded, and whether
`cmd.Start` succeeded. -/
structure Req where
  relaunch : Bool
  signalOk : Bool
  startOk : Bool
deriving DecidableEq, Repr

/-- An OS process action issued by the supervisor, processes named by
serial numbers. -/
inductive ProcAction where
  | signal : Nat → ProcAction
  | kill : Nat → ProcAction
  | wait : Nat → ProcAction
  | spawn : Nat → ProcAction
deriving DecidableEq, Repr

/-- The supervisor loop state: the `proc` variable (which keeps
pointing at a process after it has been reaped — the source never nils
it), whether that process is still alive, and the next serial number. -/
structure RunState where
  proc : Option Nat
  alive : Bool
  fresh : Nat
deriving DecidableEq, Repr

/-- One iteration of the `run` loop body (`part_000` lines 124-145):
if `proc` is non-nil, `Signal(os.Interrupt)`, on a signal error
`Kill`, then `Wait` — the reap; then, for a relaunch request, `Start`
the command and store its process (nil when `Start` failed). -/
def runStep (s : RunState) (r : Req) : RunState × List ProcAction :=
  let pre := match s.proc with
    | some p =>
      (if r.signalOk then [ProcAction.signal p]
       else [ProcAction.signal p, ProcAction.kill p]) ++ [ProcAction.wait p]
    | none => []
  if r.relaunch then
    if r.startOk then
      (⟨some s.fresh, true, s.fresh + 1⟩, pre ++ [ProcAction.spawn s.fresh])
    else (⟨none, false, s.fresh⟩, pre)
  else (⟨s.proc, false, s.fresh⟩, pre)

/-- The full action trace of the supervisor over a request sequence. -/
def runTrace (s : RunState) : List Req → List ProcAction
  | [] => []
  | r :: rs => (runStep s r).2 ++ runTrace (runStep s r).1 rs

/-- The set of live (spawned and not yet reaped) processes after a
trace: `spawn` adds a process, `wait` reaps it. -/
def liveFold : List Nat → List ProcAction → List Nat
  | l, [] => l
  | l, ProcAction.spawn p :: rest => liveFold (l ++ [p]) rest
  | l, ProcAction.wait p :: rest => liveFold (l.erase p) rest
  | l, _ :: rest => liveFold l rest

/-- Trace checker: scanning with the live set, every `spawn` must occur
while no process is live — i.e. a new child is created only after every
previous child has been waited on and reaped. -/
def chk : List Nat → List ProcAction → Bool
  | _, [] => true
  | l, ProcAction.spawn p :: rest => l.isEmpty && chk (l ++ [p]) rest
  | l, ProcAction.wait p :: rest => chk (l.erase p) rest
  | l, _ :: rest => chk l rest

/-- The processes the supervisor believes alive in a state. -/
def aliveList (s : RunState) : List Nat :=
  match s.proc, s.alive with
  | some p, true => [p]
  | _, _ => []

/-! ## The remote event source (`part_000` `connect`, lines 278-308)

The read loop over the TCP stream, modelled over the finite byte
sequence the peer sends before closing.  Reading past the end of the
list models the stream closing: `binary.Read` / `io.ReadFull` return an
error, which `connect` returns, and the goroutine at `rerun` lines
211-215 passes it to `log.Fatal`. -/

/-- A decoded JSON array element, as far as `connect` inspects it: the
type assertion `msg[3].(string)` only asks whether the element is a
string. -/
inductive JVal where
  | str : String → JVal
  | other : JVal
deriving DecidableEq, Repr

/-- How the `connect` read loop ends on a finite stream: an error
returned to the caller, or a runtime panic from `msg[3].(string)` on an
array without a string at index 3. -/
inductive ConnEnd where
  | errored : String → ConnEnd
  | panicked : ConnEnd
deriving DecidableEq, Repr

/-- The read loop of `connect` (`part_000` lines 286-305): read a
4-byte big-endian length prefix; read exactly that many payload bytes
(`io.ReadFull`); unmarshal them with the external JSON decoder `um`;
send the string at index 3 on the channel; repeat.  Returns the
forwarded paths and how the loop ended. -/
def connectLoop (um : List Nat → Option (List JVal)) :
    List Nat → List String × ConnEnd
  | a :: b :: c :: d :: rest =>
    let len := ((a * 256 + b) * 256 + c) * 256 + d
    if _h : len ≤ rest.length then
      match um (rest.take len) with
      | none => ([], ConnEnd.errored "json unmarshal failed")
      | some msg =>
        match msg.get? 3 with
        | some (JVal.str s) =>
          let r := connectLoop um (rest.drop len)
          (s :: r.1, r.2)
        | _ => ([], ConnEnd.panicked)
    else ([], ConnEnd.errored "short read")
  | _ => ([], ConnEnd.errored "read length failed")
termination_by bs => bs.length
decreasing_by
  simp only [List.length_cons, List.length_drop]
  omega

/-- `rerun` lines 211-215: in remote mode the event goroutine calls
`log.Fatal(err)` on the error `connect` returns, terminating the whole
program; a panic inside `connect` also terminates it. -/
def remoteFatal : ConnEnd → Bool
  | ConnEnd.errored _ => true
  | ConnEnd.panicked => true

/-- A diamond-shaped import graph: the entry package `A` imports `B`
and `C`, both of which import `D`. -/
def diamondG : String → Option Pkg := fun ip =>
  if ip = "A" then some ⟨"main", "dA", false, ["B", "C"]⟩
  else if ip = "B" then some ⟨"b", "dB", false, ["D"]⟩
  else if ip = "C" then some ⟨"c", "dC", false, ["D"]⟩
  else if ip = "D" then some ⟨"d", "dD", false, []⟩
  else none

/-- A cyclic import graph: `A` imports `B` and `B` imports `A`. -/
def cycG : String → Option Pkg := fun ip =>
  if ip = "A" then some ⟨"main", "dA", false, ["B"]⟩
  else if ip = "B" then some ⟨"b", "dB", false, ["A"]⟩
  else none

end Rerun

namespace Rerun

/-! ### Helper lemmas -/

/-- `debounceRun` splits over list append. -/
theorem debounceRun_append (s : String) (l₁ l₂ : List DInput) :
    debounceRun s (l₁ ++ l₂) =
    (l₂.foldl debounceStep (debounceRun s l₁)) := by
  simp [debounceRun, List.foldl_append]

/-- A path with extension ".go" is not the empty string. -/
theorem ne_empty_of_goExt {p : String} (h : fileExt p = ".go") : p ≠ "" := by
  intro he
  subst he
  simp [fileExt, extRevAux] at h

/-- Running `debounce` over a burst of ".go" events from any slot state
emits nothing and leaves the last event's path in the slot. -/
theorem debounceRun_burst (burst : List String) (s : String)
    (hne : burst ≠ []) (hgo : ∀ p ∈ burst, fileExt p = ".go") :
    debounceRun s (burst.map DInput.event) = (burst.getLast hne, []) := by
  induction burst generalizing s with
  | nil => exact absurd rfl hne
  | cons a rest ih =>
    have ha : fileExt a = ".go" := hgo a (List.mem_cons_self a rest)
    rcases rest with _ | ⟨b, rest'⟩
    · simp [debounceRun, debounceStep, ha]
    · have hgo' : ∀ p ∈ b :: rest', fileExt p = ".go" :=
        fun p hp => hgo p (List.mem_cons_of_mem a hp)
      have step : debounceRun s (((a :: b :: rest').map DInput.event)) =
          debounceRun a ((b :: rest').map DInput.event) := by
        simp [debounceRun, debounceStep, ha]
      rw [step, ih a (by simp) hgo']
      simp [List.getLast]

/-- `chk` distributes over trace concatenation. -/
theorem chk_append (l : List Nat) (t₁ t₂ : List ProcAction) :
    chk l (t₁ ++ t₂) = (chk l t₁ && chk (liveFold l t₁) t₂) := by
  induction t₁ generalizing l with
  | nil => simp [chk, liveFold]
  | cons a rest ih =>
    cases a <;> simp [chk, liveFold, ih, Bool.and_assoc]

/-- One supervisor iteration produces a checkable action list and moves
the live set to the new state's live set. -/
theorem runStep_chk (s : RunState) (r : Req) :
    chk (aliveList s) (runStep s r).2 = true ∧
    liveFold (aliveList s) (runStep s r).2 = aliveList (runStep s r).1 := by
  rcases s with ⟨proc, alive, fresh⟩
  rcases proc with _ | p <;> rcases alive <;>
    rcases r with ⟨rl, sg, st⟩ <;> rcases rl <;> rcases sg <;> rcases st <;>
      simp [runStep, aliveList, chk, liveFold]

/-- The whole supervisor trace checks from any consistent start. -/
theorem runTrace_chk (reqs : List Req) :
    ∀ s, chk (aliveList s) (runTrace s reqs) = true := by
  induction reqs with
  | nil => intro s; simp [runTrace, chk]
  | cons r rs ih =>
    intro s
    have h := runStep_chk s r
    simp [runTrace, chk_append, h.1, h.2, ih]

/-- Along a trace accepted by `chk` from a live set of at most one
process, every prefix keeps at most one process live. -/
theorem chk_live_le_one (t : List ProcAction) :
    ∀ l, chk l t = true → l.length ≤ 1 →
      ∀ n, (liveFold l (t.take n)).length ≤ 1 := by
  induction t with
  | nil =>
    intro l _ hl n
    simpa [liveFold] using hl
  | cons a rest ih =>
    intro l hc hl n
    rcases n with _ | n
    · simpa [liveFold] using hl
    · cases a with
      | spawn p =>
        have h1 : l.isEmpty = true ∧ chk (l ++ [p]) rest = true := by
          simpa [chk, Bool.and_eq_true] using hc
        have hln : l = [] := by
          cases l with
          | nil => rfl
          | cons x xs => simp [List.isEmpty] at h1
        subst hln
        simpa [liveFold] using ih [p] h1.2 (by simp) n
      | wait p =>
        have h1 : chk (l.erase p) rest = true := by simpa [chk] using hc
        have h2 : (l.erase p).length ≤ 1 :=
          le_trans (l.erase_sublist p).length_le hl
        simpa [liveFold] using ih (l.erase p) h1 h2 n
      | signal p =>
        have h1 : chk l rest = true := by simpa [chk] using hc
        simpa [liveFold] using ih l h1 hl n
      | kill p =>
        have h1 : chk l rest = true := by simpa [chk] using hc
        simpa [liveFold] using ih l h1 hl n

/-- C5: over every sequence of restart requests (with arbitrary signal
and spawn outcomes), the supervisor's action trace spawns a new child
only when no previously spawned child is still unreaped — the signal
and `Wait` on the old process precede the `Start` of the new one within
each `runStep` — and at every point of the trace at most one supervised
child process is live. -/
theorem supervisor_single_process (reqs : List Req) :
    chk [] (runTrace ⟨none, false, 0⟩ reqs) = true ∧
    ∀ n, (liveFold [] ((runTrace ⟨none, false, 0⟩ reqs).take n)).length ≤ 1 := by
  have h : chk (aliveList ⟨none, false, 0⟩) (runTrace ⟨none, false, 0⟩ reqs) = true :=
    runTrace_chk reqs _
  have ha : aliveList ⟨none, false, 0⟩ = [] := rfl
  rw [ha] at h
  exact ⟨h, fun n => chk_live_le_one _ [] h (by simp) n⟩

/-- C7: when the remote peer sends the big-endian length prefix 17
followed by fewer than 17 bytes and closes the stream, `io.ReadFull`
fails, `connect` returns the error without forwarding any path, and the
event goroutine's `log.Fatal` terminates the program. -/
theorem short_frame_fatal (um : List Nat → Option (List JVal)) (tail : List Nat)
    (h : tail.length < 17) :
    connectLoop um (0 :: 0 :: 0 :: 17 :: tail) = ([], ConnEnd.errored "short read") ∧
    remoteFatal (connectLoop um (0 :: 0 :: 0 :: 17 :: tail)).2 = true := by
  have h17 : ¬ (17 ≤ tail.length) := by omega
  refine ⟨?_, ?_⟩ <;> simp [connectLoop, h17, remoteFatal]

/-- Witness for C7: a 16-byte tail after the length prefix 17 makes the
connection fail with a short read and the program exit. -/
theorem short_frame_fatal_witness :
    (List.replicate 16 (0 : Nat)).length < 17 ∧
    (connectLoop (fun _ => none) (0 :: 0 :: 0 :: 17 :: List.replicate 16 0) =
        ([], ConnEnd.errored "short read") ∧
      remoteFatal (connectLoop (fun _ => none)
        (0 :: 0 :: 0 :: 17 :: List.replicate 16 0)).2 = true) :=
  ⟨by decide, short_frame_fatal (fun _ => none) (List.replicate 16 0) (by decide)⟩

/-- C1 (code bug in `part_000`): on the diamond graph `A → B, C → D`,
`addToWatcher` of `rerun.go` terminates and registers each of the four
directories exactly once — but `watch` of `part_000` never completes a
construction pass: the depth-first descent reaches the leaf `D`,
registers `dD`, and then blocks forever in `D`'s event-forwarding loop,
so `dB`, `dC` and `dA` are never subscribed and the call never returns.
On the cyclic graph `A → B → A` the recursion — its `watching` map is
consulted at line 260 but never written — resolves at no depth (it
recurses forever before registering anything), while `addToWatcher`
still terminates and registers each directory once.  This refutes, for
`watch`, the claim that the construction terminates with every module's
directory registered. -/
theorem watch_construction_never_returns :
    (addToWatcher diamondG 6 "A" []).map Prod.snd = some ["dA", "dB", "dD", "dC"] ∧
    watch diamondG 6 [] "A" = (["dD"], WatchOut.blocks) ∧
    (∀ fuel, watch cycG fuel [] "A" = ([], WatchOut.outOfFuel)) ∧
    (addToWatcher cycG 6 "A" []).map Prod.snd = some ["dA", "dB"] := by
  refine ⟨by simp [addToWatcher, addImports, diamondG, List.contains],
          by simp [watch, watchImports, diamondG, List.contains], ?_,
          by simp [addToWatcher, addImports, cycG, List.contains]⟩
  intro fuel
  have hboth : ∀ f, watch cycG f [] "A" = ([], WatchOut.outOfFuel) ∧
      watch cycG f [] "B" = ([], WatchOut.outOfFuel) := by
    intro f
    induction f with
    | zero => exact ⟨by simp [watch], by simp [watch]⟩
    | succ n ih =>
      obtain ⟨hA, hB⟩ := ih
      exact ⟨by simp [watch, watchImports, cycG, List.contains, hB],
             by simp [watch, watchImports, cycG, List.contains, hA]⟩
  exact (hboth fuel).1

/-- C3: for every burst of source-file change events (each path with
extension ".go", each arriving within the window of the previous one, so
no timer expiry interleaves), the aggregator emits no trigger during the
burst, and the first timer expiry after the burst — the window elapsing
with no further event — emits exactly one trigger carrying the last
event's path. -/
theorem debounce_burst_single_trigger (burst : List String)
    (hne : burst ≠ []) (hgo : ∀ p ∈ burst, fileExt p = ".go") :
    (debounceRun "" (burst.map DInput.event)).2 = [] ∧
    (debounceRun "" (burst.map DInput.event ++ [DInput.timeout])).2
      = [burst.getLast hne] := by
  have h1 := debounceRun_burst burst "" hne hgo
  refine ⟨by rw [h1], ?_⟩
  rw [debounceRun_append, h1]
  have hlast : burst.getLast hne ≠ "" :=
    ne_empty_of_goExt (hgo _ (List.getLast_mem hne))
  simp [debounceStep, hlast]

/-- Witness for C3: the burst "a.go", "b.go" followed by a quiet window
emits exactly the trigger "b.go". -/
theorem debounce_burst_single_trigger_witness :
    (debounceRun "" ((["a.go", "b.go"] : List String).map DInput.event)).2 = [] ∧
    (debounceRun "" ((["a.go", "b.go"] : List String).map DInput.event ++
        [DInput.timeout])).2
      = [(["a.go", "b.go"] : List String).getLast (by decide)] :=
  debounce_burst_single_trigger ["a.go", "b.go"] (by decide) (by decide)

/-- C6: if the entry module resolves to a package whose name is not
"main", `rerun` returns the error naming the expected and the actual
package, and never reaches the point where the watcher or remote event
source is set up. -/
theorem wrong_package_kind_fatal (pkg : Pkg) (h : pkg.name ≠ "main") :
    rerunSetup (some pkg) =
      SetupOutcome.wrongPackage
        ("expected package \"main\", got \"" ++ pkg.name ++ "\"") ∧
    rerunSetup (some pkg) ≠ SetupOutcome.watchingStarted := by
  simp [rerunSetup, h]

/-- Witness for C6: a package named "library" is rejected with the
formatted error before watching starts. -/
theorem wrong_package_kind_fatal_witness :
    rerunSetup (some ⟨"library", "/src/lib", false, []⟩) =
      SetupOutcome.wrongPackage "expected package \"main\", got \"library\"" ∧
    rerunSetup (some ⟨"library", "/src/lib", false, []⟩) ≠
      SetupOutcome.watchingStarted :=
  wrong_package_kind_fatal ⟨"library", "/src/lib", false, []⟩ (by decide)

/-- C2 (refuting the claim on `part_000`): the startup install succeeds
(empty output, so the captured `errorOutput` is `""`); the next two
cycles both fail with the identical output "E".  The claim says the
second cycle's output, equal to the immediately preceding cycle's, is
not printed again — but the code compares against the closure-captured
startup output, which is never updated (the callback at line 226
discards the fresh error output), so both cycles print. -/
theorem dedup_compares_to_startup_output :
    (rerunSession ⟨false, false, false⟩ ⟨"", false⟩
        [⟨⟨"E", false⟩, true, true⟩, ⟨⟨"E", false⟩, true, true⟩]).map
      CycleReport.printedError = [true, true] := by
  decide

/-- C4: In every rebuild cycle in which the Install stage fails (the
toolchain produced output), no Test stage and no Package/Build stage
runs in that cycle, and the supervised process is not restarted. -/
theorem install_failure_halts_cycle (cfg : Config) (lastError : String)
    (c : CycleExec) (hfail : c.inst.out ≠ "") :
    (cycleModel cfg lastError c).testRan = false ∧
    (cycleModel cfg lastError c).buildRan = false ∧
    (cycleModel cfg lastError c).restarted = false := by
  simp [cycleModel, installModel, hfail]

/-- Witness for C4: a concrete cycle whose install prints "err" runs no
test, no build, and does not restart. -/
theorem install_failure_halts_cycle_witness :
    ("err" : String) ≠ "" ∧
    ((cycleModel ⟨true, true, false⟩ "" ⟨⟨"err", true⟩, true, true⟩).testRan = false ∧
     (cycleModel ⟨true, true, false⟩ "" ⟨⟨"err", true⟩, true, true⟩).buildRan = false ∧
     (cycleModel ⟨true, true, false⟩ "" ⟨⟨"err", true⟩, true, true⟩).restarted = false) :=
  ⟨by decide, install_failure_halts_cycle ⟨true, true, false⟩ "" ⟨⟨"err", true⟩, true, true⟩ (by decide)⟩

/-- C8: when test mode is enabled and the Test stage fails, the
supervised process is not restarted in that cycle, even though the
Install stage succeeded. -/
theorem test_failure_blocks_restart (cfg : Config) (lastError : String)
    (c : CycleExec) (hinst : c.inst.out = "") (htests : cfg.do_tests = true)
    (hfail : c.testPassed = false) :
    (cycleModel cfg lastError c).restarted = false := by
  simp [cycleModel, installModel, hinst, htests, hfail]

/-- Witness for C8: a concrete cycle with a clean install, test mode on
and failing tests does not restart. -/
theorem test_failure_blocks_restart_witness :
    (cycleModel ⟨true, true, false⟩ "" ⟨⟨"", false⟩, false, true⟩).restarted = false :=
  test_failure_blocks_restart ⟨true, true, false⟩ "" ⟨⟨"", false⟩, false, true⟩
    rfl rfl rfl

/-- C9: when build mode is enabled, the install succeeded and tests (if
enabled) passed, a failure of the Package/Build stage does not prevent
the restart: the build stage runs and, with `-no-run` unset, the restart
request is still sent (`gobuild`'s result is discarded at line 238). -/
theorem build_failure_does_not_block_restart (cfg : Config) (lastError : String)
    (c : CycleExec) (hinst : c.inst.out = "") (hbuild : cfg.do_build = true)
    (hrun : cfg.never_run = false) (htests : cfg.do_tests = true → c.testPassed = true)
    (_hbfail : c.buildPassed = false) :
    (cycleModel cfg lastError c).buildRan = true ∧
    (cycleModel cfg lastError c).restarted = true := by
  rcases htest : cfg.do_tests with _ | _
  · simp [cycleModel, installModel, hinst, htest, hbuild, hrun]
  · have hp := htests htest
    simp [cycleModel, installModel, hinst, htest, hbuild, hrun, hp]

/-- Witness for C9: concrete cycle, build mode on, build fails, restart
still happens. -/
theorem build_failure_does_not_block_restart_witness :
    (cycleModel ⟨true, true, false⟩ "" ⟨⟨"", false⟩, true, false⟩).buildRan = true ∧
    (cycleModel ⟨true, true, false⟩ "" ⟨⟨"", false⟩, true, false⟩).restarted = true :=
  build_failure_does_not_block_restart ⟨true, true, false⟩ "" ⟨⟨"", false⟩, true, false⟩
    rfl rfl rfl (fun _ => rfl) rfl

/-- C10: the Install stage's success flag is exactly "the toolchain
command produced no combined output": the exit status plays no part in
it, any output is classified as a compile error, and a silent failing
invocation (non-zero exit, empty output) still sets `installed`. -/
theorem install_success_iff_no_output (e : InstallExec) (lastError : String) :
    ((installModel e lastError).installed = true ↔ e.out = "") ∧
    (e.out ≠ "" → (installModel e lastError).err = some "compile error") ∧
    (installModel { out := "", runFailed := true } lastError).installed = true := by
  constructor
  · by_cases h : e.out = "" <;> simp [installModel, h]
  · refine ⟨fun h => ?_, by simp [installModel]⟩
    simp [installModel, h]

/-- Witness for C10: at a silently failing execution with empty output
the stage reports success; at an execution that prints "x" despite a
zero exit status it reports a compile error. -/
theorem install_success_iff_no_output_witness :
    (((installModel ⟨"x", false⟩ "").installed = true ↔ ("x" : String) = "") ∧
     (("x" : String) ≠ "" → (installModel ⟨"x", false⟩ "").err = some "compile error") ∧
     (installModel { out := "", runFailed := true } "").installed = true) :=
  install_success_iff_no_output ⟨"x", false⟩ ""

end Rerun
